import Mathlib

/-!
Verification of the aggregation layer of a GPU cloud-pricing dashboard.

This file is a shallow embedding of the aggregation functions of
`gpu_data.py` (`get_cheapest_by_gpu`, `get_price_trends`,
`get_price_comparison_matrix`, `generate_market_summary`) over the
module-level pricing tables.  Python numbers are modelled as exact
rationals, Python dicts as association lists (unique keys, insertion
order), Python's stable `list.sort` as stable insertion sort, and
Python exceptions (`ValueError` from `max`/`min` of an empty sequence,
`ZeroDivisionError`) as `Except` values.  The tables, which the source
reads as module-level globals, are passed as an explicit snapshot.
-/

namespace GpuDash

/-- Python `round(x, ndigits)` on an exact rational: round half to even. -/
def roundHalfEven (q : ℚ) : ℤ :=
  let n : ℤ := ⌊q⌋
  let f : ℚ := q - n
  if f < 1/2 then n
  else if 1/2 < f then n + 1
  else if n % 2 = 0 then n else n + 1

/-- Python `round(q, ndigits)` for `ndigits ≥ 0`. -/
def pyRound (ndigits : ℕ) (q : ℚ) : ℚ :=
  (roundHalfEven (q * 10 ^ ndigits) : ℚ) / 10 ^ ndigits

/-- Python `max(l, key=k)`: the first element with maximal key, or `none` on an
empty sequence (where CPython raises `ValueError`). -/
def pyMaxBy {α : Type} {κ : Type} [LinearOrder κ] (key : α → κ) : List α → Option α
  | [] => none
  | x :: xs => some (xs.foldl (fun best y => if key best < key y then y else best) x)

/-- Python `min(l, key=k)`: the first element with minimal key, or `none` on an
empty sequence (where CPython raises `ValueError`). -/
def pyMinBy {α : Type} {κ : Type} [LinearOrder κ] (key : α → κ) : List α → Option α
  | [] => none
  | x :: xs => some (xs.foldl (fun best y => if key y < key best then y else best) x)

/-- One entry of a provider's `"gpus"` dict in `CLOUD_PRICING`.  The key
`"instance"` is a Lean keyword, hence the trailing underscore.  The field
`gpus_per_instance`, never read by the aggregation layer, is omitted. -/
structure GpuOffer where
  instance_ : String
  price_per_gpu_hr : ℚ
  regions : Option (List (String × ℚ))
deriving DecidableEq

/-- One provider entry of `CLOUD_PRICING`.  `type_` models the optional
`"type"` key read via `data.get("type", "cloud")`. -/
structure Provider where
  provider_name : String
  type_ : Option String
  gpus : List (String × GpuOffer)
  reserved_1yr_discount : ℚ
  reserved_3yr_discount : ℚ
deriving DecidableEq

/-- One entry of `GPU_SPECS`.  Only the fields read by the aggregation
functions are modelled (`fp32_tflops`, `tdp_watts`, `interconnect`,
`release_year`, `msrp_usd` are never read there).  `vendor` is read via
`spec.get("vendor", "NVIDIA")`, hence optional. -/
structure GpuSpec where
  name : String
  vendor : Option String
  vram_gb : ℚ
  arch : String
  fp16_tflops : ℚ
  tier : String
deriving DecidableEq

/-- One month entry of a GPU's series in `HISTORICAL_PRICING`. -/
structure HistPoint where
  avg : ℚ
  min : ℚ
  max : ℚ
  availability : String
deriving DecidableEq

/-- A snapshot of the module-level tables read by the aggregation layer.
`MARKET_INDICATORS` and `COMMUNITY_SENTIMENT` are only ever passed through
verbatim into the market summary, so they are carried as opaque payloads. -/
structure Table where
  GPU_SPECS : List (String × GpuSpec)
  CLOUD_PRICING : List (String × Provider)
  HISTORICAL_PRICING : List (String × List (String × HistPoint))
  MARKET_INDICATORS : String
  COMMUNITY_SENTIMENT : String
deriving DecidableEq

/-- The dict appended in the loop of `get_cheapest_by_gpu`. -/
structure Offering where
  provider : String
  provider_name : String
  provider_type : String
  instance_ : String
  price_per_gpu_hr : ℚ
  price_monthly : ℚ
  reserved_1yr : ℚ
  reserved_3yr : ℚ
  regions : List (String × ℚ)
deriving DecidableEq

/-- The dict built for one `(provider, data)` entry whose `"gpus"` contains
`gpu_id` (body of the loop in `get_cheapest_by_gpu`, lines 1550-1560). -/
def enrichOffer (prov : String) (d : Provider) (g : GpuOffer) : Offering :=
  { provider := prov
    provider_name := d.provider_name
    provider_type := d.type_.getD "cloud"
    instance_ := g.instance_
    price_per_gpu_hr := g.price_per_gpu_hr
    price_monthly := g.price_per_gpu_hr * 730
    reserved_1yr := g.price_per_gpu_hr * (1 - d.reserved_1yr_discount)
    reserved_3yr := g.price_per_gpu_hr * (1 - d.reserved_3yr_discount)
    regions := g.regions.getD [] }

/-- The `results` list of `get_cheapest_by_gpu` before the final sort:
iterate `CLOUD_PRICING` in insertion order, keep providers listing `gpu_id`. -/
def collectOffers (tbl : Table) (gpu_id : String) : List Offering :=
  tbl.CLOUD_PRICING.filterMap fun pd =>
    (pd.2.gpus.lookup gpu_id).map (enrichOffer pd.1 pd.2)

/-- The sort key relation of `results.sort(key=lambda x: x["price_per_gpu_hr"])`. -/
def priceLe (a b : Offering) : Prop := a.price_per_gpu_hr ≤ b.price_per_gpu_hr

instance : DecidableRel priceLe := fun a b =>
  inferInstanceAs (Decidable (a.price_per_gpu_hr ≤ b.price_per_gpu_hr))

instance : IsTotal Offering priceLe :=
  ⟨fun a b => le_total a.price_per_gpu_hr b.price_per_gpu_hr⟩

instance : IsTrans Offering priceLe :=
  ⟨fun _ _ _ h1 h2 => le_trans h1 h2⟩

/-- `get_cheapest_by_gpu` (gpu_data.py lines 1544-1562): all providers listing
the GPU, enriched, stably sorted ascending by hourly price (Python's
`list.sort` is stable; stable insertion sort has the same graph). -/
def get_cheapest_by_gpu (tbl : Table) (gpu_id : String) : List Offering :=
  List.insertionSort priceLe (collectOffers tbl gpu_id)

/-- `get_price_trends` (lines 1565-1569): the GPU's historical dict, `{}` if
the GPU is absent. -/
def get_price_trends (tbl : Table) (gpu_id : String) : List (String × HistPoint) :=
  (tbl.HISTORICAL_PRICING.lookup gpu_id).getD []

/-- Key relation of `sorted(trends.keys())`: lexicographic order on the
`"YYYY-MM"` period strings. -/
def periodLe (a b : String × HistPoint) : Prop := a.1 ≤ b.1

instance : DecidableRel periodLe := fun a b =>
  decidable_of_iff (a.1.toList ≤ b.1.toList) (String.le_iff_toList_le).symm

instance : IsTotal (String × HistPoint) periodLe := ⟨fun a b => le_total a.1 b.1⟩

instance : IsTrans (String × HistPoint) periodLe := ⟨fun _ _ _ h1 h2 => le_trans h1 h2⟩

/-- The month-over-month change of one GPU as computed inside
`get_price_comparison_matrix` (lines 1592-1599 and the `round(_, 1)` at
line 1615): sort the period keys, take the two latest, `((latest - prev) /
prev) * 100`, rounded to one decimal; `0` when fewer than two periods exist.
Since keys of a dict are unique, sorting the key-value pairs by key yields
the same value sequence as sorting the keys and indexing the dict. -/
def monthly_change_pct_of (tbl : Table) (gpu_id : String) : ℚ :=
  let sortedTrends := List.insertionSort periodLe (get_price_trends tbl gpu_id)
  match sortedTrends.reverse with
  | (_, latest) :: (_, prev) :: _ => pyRound 1 (((latest.avg - prev.avg) / prev.avg) * 100)
  | _ => 0

/-- The same computation tracking Python partiality: the division at line
1597 is not guarded, so a zero previous average raises `ZeroDivisionError`. -/
def monthly_change_checked (tbl : Table) (gpu_id : String) : Except String ℚ :=
  let sortedTrends := List.insertionSort periodLe (get_price_trends tbl gpu_id)
  match sortedTrends.reverse with
  | (_, latest) :: (_, prev) :: _ =>
      if prev.avg = 0 then .error "ZeroDivisionError: division by zero"
      else .ok (pyRound 1 (((latest.avg - prev.avg) / prev.avg) * 100))
  | _ => .ok 0

/-- The row dict of `get_price_comparison_matrix` (lines 1601-1618). -/
structure ComparisonRow where
  gpu_id : String
  name : String
  vendor : String
  vram_gb : ℚ
  arch : String
  tier : String
  cheapest_price : ℚ
  cheapest_provider : String
  cheapest_provider_type : String
  most_expensive : ℚ
  avg_price : ℚ
  num_providers : ℕ
  price_spread_pct : ℚ
  monthly_change_pct : ℚ
  flops_per_dollar : ℚ
  vram_per_dollar : ℚ
deriving DecidableEq

/-- The body of the loop of `get_price_comparison_matrix` for one
`(gpu_id, spec)` entry: `none` when the GPU has no offerings (the
`continue` at line 1586), otherwise the row.  `providers.getLastD p0`
is `providers[-1] if providers else cheapest` of line 1588. -/
def rowFor (tbl : Table) (e : String × GpuSpec) : Option ComparisonRow :=
  match get_cheapest_by_gpu tbl e.1 with
  | [] => none
  | p0 :: ps =>
    let providers := p0 :: ps
    let cheapest := p0.price_per_gpu_hr
    let most_expensive := (providers.getLastD p0).price_per_gpu_hr
    some
      { gpu_id := e.1
        name := e.2.name
        vendor := e.2.vendor.getD "NVIDIA"
        vram_gb := e.2.vram_gb
        arch := e.2.arch
        tier := e.2.tier
        cheapest_price := cheapest
        cheapest_provider := p0.provider
        cheapest_provider_type := p0.provider_type
        most_expensive := most_expensive
        avg_price := pyRound 2 ((providers.map (fun p => p.price_per_gpu_hr)).sum / providers.length)
        num_providers := providers.length
        price_spread_pct :=
          if 0 < cheapest then pyRound 1 (((most_expensive - cheapest) / cheapest) * 100) else 0
        monthly_change_pct := monthly_change_pct_of tbl e.1
        flops_per_dollar := if 0 < cheapest then pyRound 1 (e.2.fp16_tflops / cheapest) else 0
        vram_per_dollar := if 0 < cheapest then pyRound 1 (e.2.vram_gb / cheapest) else 0 }

/-- Key relation of `rows.sort(key=lambda x: x["cheapest_price"], reverse=True)`:
Python's reversed stable sort compares keys the other way round while keeping
equal-keyed rows in original order. -/
def cheaperRowLe (a b : ComparisonRow) : Prop := b.cheapest_price ≤ a.cheapest_price

instance : DecidableRel cheaperRowLe := fun a b =>
  inferInstanceAs (Decidable (b.cheapest_price ≤ a.cheapest_price))

instance : IsTotal ComparisonRow cheaperRowLe :=
  ⟨fun a b => le_total b.cheapest_price a.cheapest_price⟩

instance : IsTrans ComparisonRow cheaperRowLe :=
  ⟨fun _ _ _ h1 h2 => le_trans h2 h1⟩

/-- `get_price_comparison_matrix` (lines 1580-1620): one row per GPU with at
least one offering, sorted descending by cheapest price. -/
def get_price_comparison_matrix (tbl : Table) : List ComparisonRow :=
  List.insertionSort cheaperRowLe (tbl.GPU_SPECS.filterMap (rowFor tbl))

/-- The rows of the comparison matrix tracking Python partiality of the
unguarded trend division (see `monthly_change_checked`). -/
def rowsChecked (tbl : Table) : List (String × GpuSpec) → Except String (List ComparisonRow)
  | [] => .ok []
  | e :: rest =>
    match rowFor tbl e with
    | none => rowsChecked tbl rest
    | some r => do
        let _ ← monthly_change_checked tbl e.1
        let rs ← rowsChecked tbl rest
        .ok (r :: rs)

/-- `get_price_comparison_matrix` with Python's `ZeroDivisionError` made
explicit: agrees with the total model whenever no row's trend computation
divides by a zero previous average. -/
def get_price_comparison_matrix_checked (tbl : Table) : Except String (List ComparisonRow) := do
  let rows ← rowsChecked tbl tbl.GPU_SPECS
  .ok (List.insertionSort cheaperRowLe rows)

/-- Sub-dict `"best_flops_per_dollar"` / `"best_vram_per_dollar"` of the
market summary. -/
structure BestValue where
  gpu : String
  value : ℚ
  at_price : ℚ
  provider : String
deriving DecidableEq

/-- Sub-dict `"biggest_price_drop"` of the market summary. -/
structure PriceDrop where
  gpu : String
  change_pct : ℚ
deriving DecidableEq

/-- Sub-dict `"most_competitive_market"` of the market summary. -/
structure CompetitiveMarket where
  gpu : String
  num_providers : ℕ
  price_spread_pct : ℚ
deriving DecidableEq

/-- The dict returned by `generate_market_summary` (lines 1632-1660). -/
structure MarketSummary where
  timestamp : String
  total_gpus_tracked : ℕ
  total_providers_tracked : ℕ
  best_flops_per_dollar : BestValue
  best_vram_per_dollar : BestValue
  biggest_price_drop : PriceDrop
  most_competitive_market : CompetitiveMarket
  market_indicators : String
  comparison_matrix : List ComparisonRow
  market_sentiment : String
deriving DecidableEq

/-- `generate_market_summary` (lines 1623-1660).  `now` is the value of
`datetime.now().isoformat()` at the call, made an explicit input.  The four
`max`/`min` calls at lines 1627-1630 have no emptiness guard: on an empty
comparison matrix CPython raises `ValueError`, modelled as the `.error`
branch; there is no named "insufficient data" condition in the source. -/
def generate_market_summary (tbl : Table) (now : String) : Except String MarketSummary :=
  let comparison := get_price_comparison_matrix tbl
  match pyMaxBy (fun x => x.flops_per_dollar) comparison,
        pyMaxBy (fun x => x.vram_per_dollar) comparison,
        pyMinBy (fun x => x.monthly_change_pct) comparison,
        pyMaxBy (fun x => x.num_providers) comparison with
  | some bf, some bv, some bpd, some mc =>
      .ok
        { timestamp := now
          total_gpus_tracked := tbl.GPU_SPECS.length
          total_providers_tracked := tbl.CLOUD_PRICING.length
          best_flops_per_dollar :=
            { gpu := bf.name, value := bf.flops_per_dollar
              at_price := bf.cheapest_price, provider := bf.cheapest_provider }
          best_vram_per_dollar :=
            { gpu := bv.name, value := bv.vram_per_dollar
              at_price := bv.cheapest_price, provider := bv.cheapest_provider }
          biggest_price_drop := { gpu := bpd.name, change_pct := bpd.monthly_change_pct }
          most_competitive_market :=
            { gpu := mc.name, num_providers := mc.num_providers
              price_spread_pct := mc.price_spread_pct }
          market_indicators := tbl.MARKET_INDICATORS
          comparison_matrix := comparison
          market_sentiment := tbl.COMMUNITY_SENTIMENT }
  | _, _, _, _ => .error "ValueError: max() arg is an empty sequence"

/-- Whether an `Except`-modelled computation succeeded. -/
def isOkB {α : Type} : Except String α → Bool
  | .ok _ => true
  | .error _ => false

/-- A placeholder summary used only to totalize `summaryAt` below. -/
def fallbackSummary : MarketSummary :=
  { timestamp := ""
    total_gpus_tracked := 0
    total_providers_tracked := 0
    best_flops_per_dollar := { gpu := "", value := 0, at_price := 0, provider := "" }
    best_vram_per_dollar := { gpu := "", value := 0, at_price := 0, provider := "" }
    biggest_price_drop := { gpu := "", change_pct := 0 }
    most_competitive_market := { gpu := "", num_providers := 0, price_spread_pct := 0 }
    market_indicators := ""
    comparison_matrix := []
    market_sentiment := "" }

/-- The market summary at a snapshot and clock value, defaulting to the
placeholder when the source would raise. -/
def summaryAt (tbl : Table) (now : String) : MarketSummary :=
  match generate_market_summary tbl now with
  | .ok s => s
  | .error _ => fallbackSummary

/-- The summary with its wall-clock timestamp field blanked, used to state
determinism of everything except the clock. -/
def eraseTimestamp (s : MarketSummary) : MarketSummary := { s with timestamp := "" }

/-- The `change_pct` of the summary's selected "biggest price drop", with 0
for a failed summary; used to state closed facts about the selection. -/
def biggest_drop_pct (tbl : Table) (now : String) : ℚ :=
  match generate_market_summary tbl now with
  | .ok s => s.biggest_price_drop.change_pct
  | .error _ => 0

/-- A placeholder row used only to pick concrete rows out of concrete
matrices in witnesses. -/
def fallbackRow : ComparisonRow :=
  { gpu_id := "", name := "", vendor := "", vram_gb := 0, arch := "", tier := ""
    cheapest_price := 0, cheapest_provider := "", cheapest_provider_type := ""
    most_expensive := 0, avg_price := 0, num_providers := 0, price_spread_pct := 0
    monthly_change_pct := 0, flops_per_dollar := 0, vram_per_dollar := 0 }

/-! Fixture snapshots used by counterexamples, scenario theorems and
witnesses.  Prices and discounts are the exact decimal values of the
corresponding spec scenarios. -/

/-- A GPU spec fixture: `fp16_tflops = 1000`, `vram_gb = 80`. -/
def specX : GpuSpec :=
  { name := "GPU X", vendor := some "NVIDIA", vram_gb := 80, arch := "TestArch"
    fp16_tflops := 1000, tier := "flagship" }

/-- A provider with a single offering for `gpu` at hourly price `p`,
with the scenario-1 discounts (1yr = 0.30, 3yr = 0.50). -/
def provOf (pname : String) (sku : String) (gpu : String) (p : ℚ) : Provider :=
  { provider_name := pname, type_ := some "cloud"
    gpus := [(gpu, { instance_ := sku, price_per_gpu_hr := p, regions := none })]
    reserved_1yr_discount := mkRat 3 10, reserved_3yr_discount := mkRat 1 2 }

/-- Snapshot for claim C1: a GPU exists but no provider offers anything,
so the comparison matrix is empty. -/
def T1 : Table :=
  { GPU_SPECS := [("X", specX)], CLOUD_PRICING := [], HISTORICAL_PRICING := []
    MARKET_INDICATORS := "MI", COMMUNITY_SENTIMENT := "CS" }

/-- Spec scenario 1: GPU `"X"` offered by `"A"` at $2.00/hr and `"B"` at
$1.50/hr, discounts 1yr = 0.30 and 3yr = 0.50 for both. -/
def T5 : Table :=
  { GPU_SPECS := [("X", specX)]
    CLOUD_PRICING := [("A", provOf "A" "a1" "X" 2), ("B", provOf "B" "b1" "X" (mkRat 3 2))]
    HISTORICAL_PRICING := []
    MARKET_INDICATORS := "MI", COMMUNITY_SENTIMENT := "CS" }

/-- The enriched offering for provider `"B"` in scenario 1:
monthly = 1.5 × 730 = 1095, 1yr = 1.5 × 0.70 = 1.05, 3yr = 1.5 × 0.50 = 0.75. -/
def offerB : Offering :=
  { provider := "B", provider_name := "B", provider_type := "cloud", instance_ := "b1"
    price_per_gpu_hr := mkRat 3 2, price_monthly := 1095, reserved_1yr := mkRat 21 20
    reserved_3yr := mkRat 3 4, regions := [] }

/-- The enriched offering for provider `"A"` in scenario 1:
monthly = 2 × 730 = 1460, 1yr = 2 × 0.70 = 1.40, 3yr = 2 × 0.50 = 1.00. -/
def offerA : Offering :=
  { provider := "A", provider_name := "A", provider_type := "cloud", instance_ := "a1"
    price_per_gpu_hr := 2, price_monthly := 1460, reserved_1yr := mkRat 7 5
    reserved_3yr := 1, regions := [] }

/-- Spec scenario 2: two historical periods for `"X"`, avg $2.00 then $1.80. -/
def T2 : Table :=
  { GPU_SPECS := [("X", specX)]
    CLOUD_PRICING := [("C", provOf "C" "c1" "X" 2)]
    HISTORICAL_PRICING :=
      [("X", [("2025-01", { avg := 2, min := 2, max := 2, availability := "good" }),
              ("2025-02", { avg := mkRat 9 5, min := mkRat 9 5, max := mkRat 9 5,
                            availability := "good" })])]
    MARKET_INDICATORS := "MI", COMMUNITY_SENTIMENT := "CS" }

/-- Counterexample snapshot for claim C6: averages $3.00 then $2.00, whose
raw month-over-month change -100/3 is not representable in one decimal. -/
def T6 : Table :=
  { GPU_SPECS := [("Z", specX)]
    CLOUD_PRICING := [("C", provOf "C" "c1" "Z" 1)]
    HISTORICAL_PRICING :=
      [("Z", [("2025-01", { avg := 3, min := 3, max := 3, availability := "good" }),
              ("2025-02", { avg := 2, min := 2, max := 2, availability := "good" })])]
    MARKET_INDICATORS := "MI", COMMUNITY_SENTIMENT := "CS" }

/-- The single provider of the claim-C3 counterexample snapshot, listing
both GPUs at $1/hr. -/
def provT3 : Provider :=
  { provider_name := "C", type_ := some "cloud"
    gpus := [("G1", { instance_ := "c1", price_per_gpu_hr := 1, regions := none }),
             ("G2", { instance_ := "c2", price_per_gpu_hr := 1, regions := none })]
    reserved_1yr_discount := mkRat 3 10, reserved_3yr_discount := mkRat 1 2 }

/-- Counterexample snapshot for claim C3: every GPU's price is rising
(G1: +10%, G2: +5%), so the minimum monthly change is positive. -/
def T3 : Table :=
  { GPU_SPECS := [("G1", specX), ("G2", specX)]
    CLOUD_PRICING := [("C", provT3)]
    HISTORICAL_PRICING :=
      [("G1", [("2025-01", { avg := 1, min := 1, max := 1, availability := "good" }),
               ("2025-02", { avg := mkRat 11 10, min := mkRat 11 10, max := mkRat 11 10,
                             availability := "good" })]),
       ("G2", [("2025-01", { avg := 1, min := 1, max := 1, availability := "good" }),
               ("2025-02", { avg := mkRat 21 20, min := mkRat 21 20, max := mkRat 21 20,
                             availability := "good" })])]
    MARKET_INDICATORS := "MI", COMMUNITY_SENTIMENT := "CS" }

/-- Failing input for claim C7: the second-latest historical average is 0,
so the unguarded division at line 1597 divides by zero. -/
def T7 : Table :=
  { GPU_SPECS := [("Z", specX)]
    CLOUD_PRICING := [("C", provOf "C" "c1" "Z" 1)]
    HISTORICAL_PRICING :=
      [("Z", [("2025-01", { avg := 0, min := 0, max := 0, availability := "scarce" }),
              ("2025-02", { avg := 1, min := 1, max := 1, availability := "scarce" })])]
    MARKET_INDICATORS := "MI", COMMUNITY_SENTIMENT := "CS" }

/-- Spec scenario 4, first half: GPU `"Y"` with FP16 throughput 1000 at a
cheapest price of $2.00. -/
def T4a : Table :=
  { GPU_SPECS := [("Y", specX)]
    CLOUD_PRICING := [("C", provOf "C" "c1" "Y" 2)]
    HISTORICAL_PRICING := []
    MARKET_INDICATORS := "MI", COMMUNITY_SENTIMENT := "CS" }

/-- Spec scenario 4, degenerate half: the same GPU at a cheapest price of $0.00. -/
def T4b : Table :=
  { GPU_SPECS := [("Y", specX)]
    CLOUD_PRICING := [("C", provOf "C" "c1" "Y" 0)]
    HISTORICAL_PRICING := []
    MARKET_INDICATORS := "MI", COMMUNITY_SENTIMENT := "CS" }

/-! Helper lemmas about the embedding. -/

/-- The running fold of `pyMinBy` returns an element of the sequence. -/
theorem foldl_minBy_mem {α κ : Type} [LinearOrder κ] (key : α → κ) :
    ∀ (xs : List α) (x : α),
      xs.foldl (fun best y => if key y < key best then y else best) x ∈ x :: xs := by
  intro xs
  induction xs with
  | nil => intro x; simp
  | cons z zs ih =>
    intro x
    rw [List.foldl_cons]
    by_cases h : key z < key x
    · rw [if_pos h]
      exact List.mem_cons_of_mem x (ih z)
    · rw [if_neg h]
      rcases List.mem_cons.mp (ih x) with heq | hmem
      · rw [heq]; exact List.mem_cons_self x (z :: zs)
      · exact List.mem_cons_of_mem x (List.mem_cons_of_mem z hmem)

/-- The running fold of `pyMinBy` has a minimal key among the sequence. -/
theorem foldl_minBy_le {α κ : Type} [LinearOrder κ] (key : α → κ) :
    ∀ (xs : List α) (x : α),
      key (xs.foldl (fun best z => if key z < key best then z else best) x) ≤ key x ∧
      ∀ y ∈ xs, key (xs.foldl (fun best z => if key z < key best then z else best) x) ≤ key y := by
  intro xs
  induction xs with
  | nil => intro x; exact ⟨le_refl _, by simp⟩
  | cons z zs ih =>
    intro x
    rw [List.foldl_cons]
    by_cases h : key z < key x
    · rw [if_pos h]
      refine ⟨le_trans (ih z).1 (le_of_lt h), ?_⟩
      intro y hy
      rcases List.mem_cons.mp hy with h2 | h2
      · rw [h2]; exact (ih z).1
      · exact (ih z).2 y h2
    · rw [if_neg h]
      refine ⟨(ih x).1, ?_⟩
      intro y hy
      rcases List.mem_cons.mp hy with h2 | h2
      · rw [h2]; exact le_trans (ih x).1 (not_lt.mp h)
      · exact (ih x).2 y h2

/-- Characterization of a successful `pyMinBy`: the result is an element of
the sequence with minimal key. -/
theorem pyMinBy_spec {α κ : Type} [LinearOrder κ] (key : α → κ) (l : List α) (m : α)
    (h : pyMinBy key l = some m) : m ∈ l ∧ ∀ y ∈ l, key m ≤ key y := by
  cases l with
  | nil => simp [pyMinBy] at h
  | cons x xs =>
    simp only [pyMinBy, Option.some.injEq] at h
    subst h
    refine ⟨foldl_minBy_mem key xs x, ?_⟩
    intro y hy
    rcases List.mem_cons.mp hy with h2 | h2
    · rw [h2]; exact (foldl_minBy_le key xs x).1
    · exact (foldl_minBy_le key xs x).2 y h2

/-- Inserting an offering of price `q` leaves the `price = q` class of the
list intact, with the new element in front: the offerings skipped by
`orderedInsert` all have a strictly smaller price. -/
theorem filter_orderedInsert_of_eq (q : ℚ) (x : Offering) (l : List Offering)
    (hx : x.price_per_gpu_hr = q) :
    (l.orderedInsert priceLe x).filter (fun a => decide (a.price_per_gpu_hr = q)) =
      x :: l.filter (fun a => decide (a.price_per_gpu_hr = q)) := by
  induction l with
  | nil => simp [List.orderedInsert, hx]
  | cons y ys ih =>
    by_cases h : priceLe x y
    · simp [List.orderedInsert, h, hx]
    · have h' : ¬ (x.price_per_gpu_hr ≤ y.price_per_gpu_hr) := h
      have hy : ¬ (y.price_per_gpu_hr = q) := by
        rw [← hx]
        exact ne_of_lt (not_le.mp h')
      simp [List.orderedInsert, h, hy, ih]

/-- Inserting an offering whose price is not `q` leaves the `price = q`
class of the list unchanged. -/
theorem filter_orderedInsert_of_ne (q : ℚ) (x : Offering) (l : List Offering)
    (hx : ¬ (x.price_per_gpu_hr = q)) :
    (l.orderedInsert priceLe x).filter (fun a => decide (a.price_per_gpu_hr = q)) =
      l.filter (fun a => decide (a.price_per_gpu_hr = q)) := by
  induction l with
  | nil => simp [List.orderedInsert, hx]
  | cons y ys ih =>
    by_cases h : priceLe x y
    · simp [List.orderedInsert, h, hx]
    · simp [List.orderedInsert, h, List.filter_cons, ih]

/-- Stability of the price sort: for every price value, the sorted list
restricted to that price equals the unsorted list restricted to it, i.e.
ties keep their original provider-table order. -/
theorem filter_insertionSort_price (q : ℚ) (l : List Offering) :
    (l.insertionSort priceLe).filter (fun a => decide (a.price_per_gpu_hr = q)) =
      l.filter (fun a => decide (a.price_per_gpu_hr = q)) := by
  induction l with
  | nil => rfl
  | cons x xs ih =>
    by_cases hx : x.price_per_gpu_hr = q
    · rw [List.insertionSort, filter_orderedInsert_of_eq q x _ hx, ih]
      simp [hx]
    · rw [List.insertionSort, filter_orderedInsert_of_ne q x _ hx, ih]
      simp [hx]

/-- When no provider lists the GPU, the collected offering list is empty. -/
theorem collectOffers_eq_nil {tbl : Table} {g : String}
    (h : ∀ pd ∈ tbl.CLOUD_PRICING, pd.2.gpus.lookup g = none) :
    collectOffers tbl g = [] := by
  unfold collectOffers
  rw [List.filterMap_eq_nil_iff]
  intro pd hpd
  rw [h pd hpd]
  rfl

/-- Membership in `get_cheapest_by_gpu`: exactly the enrichments of the
provider entries listing the GPU. -/
theorem mem_cheapest_iff {tbl : Table} {g : String} {o : Offering} :
    o ∈ get_cheapest_by_gpu tbl g ↔
      ∃ pd ∈ tbl.CLOUD_PRICING, ∃ go, pd.2.gpus.lookup g = some go ∧
        enrichOffer pd.1 pd.2 go = o := by
  unfold get_cheapest_by_gpu
  rw [(List.perm_insertionSort priceLe (collectOffers tbl g)).mem_iff]
  unfold collectOffers
  rw [List.mem_filterMap]
  constructor
  · rintro ⟨pd, hpd, hmap⟩
    rcases Option.map_eq_some'.mp hmap with ⟨go, hgo, henr⟩
    exact ⟨pd, hpd, go, hgo, henr⟩
  · rintro ⟨pd, hpd, go, hgo, henr⟩
    exact ⟨pd, hpd, Option.map_eq_some'.mpr ⟨go, hgo, henr⟩⟩

/-- A GPU gets no row exactly when it has no offerings. -/
theorem rowFor_eq_none_iff {tbl : Table} {e : String × GpuSpec} :
    rowFor tbl e = none ↔ get_cheapest_by_gpu tbl e.1 = [] := by
  unfold rowFor
  cases get_cheapest_by_gpu tbl e.1 <;> simp

/-- A GPU with offerings gets a row. -/
theorem rowFor_isSome_of_ne {tbl : Table} {e : String × GpuSpec}
    (h : ¬ (get_cheapest_by_gpu tbl e.1 = [])) : ∃ r, rowFor tbl e = some r := by
  cases hr : rowFor tbl e with
  | none => exact absurd (rowFor_eq_none_iff.mp hr) h
  | some r => exact ⟨r, rfl⟩

/-- The id and trend fields of a produced row. -/
theorem rowFor_fields {tbl : Table} {e : String × GpuSpec} {r : ComparisonRow}
    (h : rowFor tbl e = some r) :
    r.gpu_id = e.1 ∧ r.monthly_change_pct = monthly_change_pct_of tbl e.1 := by
  unfold rowFor at h
  cases hc : get_cheapest_by_gpu tbl e.1 with
  | nil => rw [hc] at h; cases h
  | cons p0 ps =>
    rw [hc] at h
    injection h with h
    subst h
    exact ⟨rfl, rfl⟩

/-- The price fields of a produced row, in terms of the sorted offering list. -/
theorem rowFor_price_fields {tbl : Table} {e : String × GpuSpec} {r : ComparisonRow}
    (h : rowFor tbl e = some r) :
    ∃ p0 ps, get_cheapest_by_gpu tbl e.1 = p0 :: ps ∧
      r.cheapest_price = p0.price_per_gpu_hr ∧
      r.most_expensive = ((p0 :: ps).getLastD p0).price_per_gpu_hr ∧
      r.price_spread_pct =
        (if 0 < r.cheapest_price then
          pyRound 1 (((r.most_expensive - r.cheapest_price) / r.cheapest_price) * 100)
        else 0) := by
  unfold rowFor at h
  cases hc : get_cheapest_by_gpu tbl e.1 with
  | nil => rw [hc] at h; cases h
  | cons p0 ps =>
    rw [hc] at h
    injection h with h
    subst h
    exact ⟨p0, ps, rfl, rfl, rfl, rfl⟩

/-- Membership in the comparison matrix: exactly the rows produced for
spec-table entries. -/
theorem mem_matrix_iff {tbl : Table} {r : ComparisonRow} :
    r ∈ get_price_comparison_matrix tbl ↔ ∃ e ∈ tbl.GPU_SPECS, rowFor tbl e = some r := by
  unfold get_price_comparison_matrix
  rw [(List.perm_insertionSort cheaperRowLe _).mem_iff]
  exact List.mem_filterMap

/-- The head of a price-sorted offering list has a price below its last
element's. -/
theorem head_le_getLastD {p0 : Offering} {ps : List Offering}
    (hs : List.Sorted priceLe (p0 :: ps)) :
    p0.price_per_gpu_hr ≤ ((p0 :: ps).getLastD p0).price_per_gpu_hr := by
  have hmem : (p0 :: ps).getLastD p0 ∈ p0 :: ps := by
    rw [List.getLastD_cons]
    exact List.getLastD_mem_cons ps p0
  rcases List.mem_cons.mp hmem with heq | hmem2
  · rw [heq]
  · exact (List.pairwise_cons.mp hs).1 _ hmem2

/-- Round half to even preserves non-negativity. -/
theorem roundHalfEven_nonneg {q : ℚ} (hq : 0 ≤ q) : 0 ≤ roundHalfEven q := by
  unfold roundHalfEven
  have hn : (0 : ℤ) ≤ ⌊q⌋ := Int.floor_nonneg.mpr hq
  dsimp only
  split
  · exact hn
  · split
    · omega
    · split
      · exact hn
      · omega

/-- Python rounding preserves non-negativity. -/
theorem pyRound_nonneg {q : ℚ} (n : ℕ) (hq : 0 ≤ q) : 0 ≤ pyRound n q := by
  unfold pyRound
  apply div_nonneg
  · have h1 : (0 : ℚ) ≤ q * 10 ^ n := mul_nonneg hq (by positivity)
    exact_mod_cast roundHalfEven_nonneg h1
  · positivity

/-- Fewer than two historical periods yield a zero monthly change. -/
theorem monthly_change_pct_of_short {tbl : Table} {g : String}
    (h : (get_price_trends tbl g).length < 2) :
    monthly_change_pct_of tbl g = 0 := by
  unfold monthly_change_pct_of
  have hlen : (List.insertionSort periodLe (get_price_trends tbl g)).length < 2 := by
    rw [(List.perm_insertionSort periodLe _).length_eq]; exact h
  rcases hs : List.insertionSort periodLe (get_price_trends tbl g) with _ | ⟨a, _ | ⟨b, bs⟩⟩
  · simp [hs]
  · simp [hs]
  · rw [hs] at hlen
    simp at hlen
    omega

/-- The number of rows produced equals the number of spec-table entries
with a non-empty offering list. -/
theorem length_filterMap_rowFor (tbl : Table) (l : List (String × GpuSpec)) :
    (l.filterMap (rowFor tbl)).length =
      (l.filter (fun e => decide (¬ (get_cheapest_by_gpu tbl e.1 = [])))).length := by
  induction l with
  | nil => rfl
  | cons e rest ih =>
    by_cases h : get_cheapest_by_gpu tbl e.1 = []
    · have hn : rowFor tbl e = none := rowFor_eq_none_iff.mpr h
      simp [List.filterMap_cons, hn, h, ih]
    · rcases rowFor_isSome_of_ne h with ⟨r, hr⟩
      simp [List.filterMap_cons, hr, h, ih]

/-- No produced row carries a GPU id outside the processed spec entries. -/
theorem countP_rows_not_mem (tbl : Table) (gid : String) (l : List (String × GpuSpec))
    (h : ¬ (gid ∈ l.map Prod.fst)) :
    (l.filterMap (rowFor tbl)).countP (fun r => decide (r.gpu_id = gid)) = 0 := by
  induction l with
  | nil => rfl
  | cons a rest ih =>
    rw [List.map_cons, List.mem_cons] at h
    push_neg at h
    obtain ⟨h1, h2⟩ := h
    cases hra : rowFor tbl a with
    | none => simp only [List.filterMap_cons, hra]; exact ih h2
    | some ra =>
      have hid : ra.gpu_id = a.1 := (rowFor_fields hra).1
      have : ¬ (ra.gpu_id = gid) := by rw [hid]; exact fun hc => h1 hc.symm
      simp only [List.filterMap_cons, hra, List.countP_cons, this, decide_False,
        if_false, add_zero]
      exact ih h2

/-- Under unique spec-table keys, a GPU with offerings yields exactly one
row among those produced. -/
theorem countP_rows_of_mem (tbl : Table) (l : List (String × GpuSpec))
    (hnd : (l.map Prod.fst).Nodup) (e : String × GpuSpec) (he : e ∈ l)
    (hne : ¬ (get_cheapest_by_gpu tbl e.1 = [])) :
    (l.filterMap (rowFor tbl)).countP (fun r => decide (r.gpu_id = e.1)) = 1 := by
  induction l with
  | nil => cases he
  | cons a rest ih =>
    rw [List.map_cons, List.nodup_cons] at hnd
    obtain ⟨ha, hnd2⟩ := hnd
    rcases List.mem_cons.mp he with rfl | he2
    · rcases rowFor_isSome_of_ne hne with ⟨r, hr⟩
      have hgid : r.gpu_id = e.1 := (rowFor_fields hr).1
      have h0 : (rest.filterMap (rowFor tbl)).countP (fun r => decide (r.gpu_id = e.1)) = 0 :=
        countP_rows_not_mem tbl e.1 rest ha
      simp [List.filterMap_cons, hr, List.countP_cons, hgid, h0]
    · have hae : ¬ (a.1 = e.1) := by
        intro hq
        exact ha (hq ▸ List.mem_map_of_mem Prod.fst he2)
      cases hra : rowFor tbl a with
      | none =>
        simp only [List.filterMap_cons, hra]
        exact ih hnd2 he2
      | some ra =>
        have hid : ra.gpu_id = a.1 := (rowFor_fields hra).1
        have hno : ¬ (ra.gpu_id = e.1) := by rw [hid]; exact hae
        simp only [List.filterMap_cons, hra, List.countP_cons, hno, decide_False,
          if_false, add_zero]
        exact ih hnd2 he2

/-- The sorted offering list is empty exactly when the collected one is. -/
theorem cheapest_eq_nil_iff {tbl : Table} {g : String} :
    get_cheapest_by_gpu tbl g = [] ↔ collectOffers tbl g = [] := by
  unfold get_cheapest_by_gpu
  rw [← List.length_eq_zero, ← List.length_eq_zero,
    (List.perm_insertionSort priceLe (collectOffers tbl g)).length_eq]

/-- The default head of a non-empty list is its member head. -/
theorem headD_mem {α : Type} (l : List α) (d : α) (h : ¬ (l = [])) : l.headD d ∈ l := by
  cases l with
  | nil => exact absurd rfl h
  | cons a as => exact List.mem_cons_self a as

/-! Claim theorems. -/

/-- Claim C4: for every snapshot and GPU identifier, `get_cheapest_by_gpu`
returns the provider offerings for that GPU sorted non-decreasing by hourly
price; the result is a permutation of the collected enriched offerings
(nothing dropped or invented); ties keep the original provider-table
iteration order (stability: for each price value the restriction of the
output equals the restriction of the input); and for an identifier no
provider lists, the result is the empty list (the embedding is total, so
nothing is ever raised). -/
theorem C4_cheapest_sorted_stable_empty (tbl : Table) (g : String) :
    List.Sorted priceLe (get_cheapest_by_gpu tbl g) ∧
    List.Perm (get_cheapest_by_gpu tbl g) (collectOffers tbl g) ∧
    (∀ q : ℚ, (get_cheapest_by_gpu tbl g).filter (fun o => decide (o.price_per_gpu_hr = q)) =
      (collectOffers tbl g).filter (fun o => decide (o.price_per_gpu_hr = q))) ∧
    ((∀ pd ∈ tbl.CLOUD_PRICING, pd.2.gpus.lookup g = none) → get_cheapest_by_gpu tbl g = []) := by
  refine ⟨List.sorted_insertionSort priceLe _, List.perm_insertionSort priceLe _, ?_, ?_⟩
  · intro q
    exact filter_insertionSort_price q _
  · intro h
    unfold get_cheapest_by_gpu
    rw [collectOffers_eq_nil h]
    rfl

/-- Witness for C4 at the snapshot `T1`, whose provider table is empty. -/
theorem C4_witness :
    get_cheapest_by_gpu T1 "X" = [] ∧ List.Sorted priceLe (get_cheapest_by_gpu T1 "X") :=
  ⟨(C4_cheapest_sorted_stable_empty T1 "X").2.2.2 (by decide),
   (C4_cheapest_sorted_stable_empty T1 "X").1⟩

/-- Claim C5: every offering returned by `get_cheapest_by_gpu` carries a
monthly price of hourly × 730 and the reserved prices hourly × (1 − discount)
of its provider; for a provider entry whose discounts satisfy
0 ≤ d1yr ≤ d3yr ≤ 1 and whose hourly price is non-negative, the enriched
prices are ordered 3yr ≤ 1yr ≤ on-demand; and on the scenario-1 fixture the
lookup for `"X"` returns [B@$1.50, A@$2.00] with B's 3-year price $0.75. -/
theorem C5_pricing_algebra :
    (∀ (tbl : Table) (g : String) (o : Offering), o ∈ get_cheapest_by_gpu tbl g →
      o.price_monthly = o.price_per_gpu_hr * 730 ∧
      ∃ pd ∈ tbl.CLOUD_PRICING, o.provider = pd.1 ∧
        o.reserved_1yr = o.price_per_gpu_hr * (1 - pd.2.reserved_1yr_discount) ∧
        o.reserved_3yr = o.price_per_gpu_hr * (1 - pd.2.reserved_3yr_discount)) ∧
    (∀ (tbl : Table) (g : String) (pd : String × Provider) (go : GpuOffer),
      pd ∈ tbl.CLOUD_PRICING → pd.2.gpus.lookup g = some go →
      0 ≤ go.price_per_gpu_hr → 0 ≤ pd.2.reserved_1yr_discount →
      pd.2.reserved_1yr_discount ≤ pd.2.reserved_3yr_discount →
      pd.2.reserved_3yr_discount ≤ 1 →
      (enrichOffer pd.1 pd.2 go).reserved_3yr ≤ (enrichOffer pd.1 pd.2 go).reserved_1yr ∧
      (enrichOffer pd.1 pd.2 go).reserved_1yr ≤ (enrichOffer pd.1 pd.2 go).price_per_gpu_hr) ∧
    get_cheapest_by_gpu T5 "X" = [offerB, offerA] ∧
    offerB.reserved_3yr = 3/4 := by
  refine ⟨?_, ?_, ?_, by norm_num [offerB, Rat.mkRat_eq_div]⟩
  · intro tbl g o ho
    rcases mem_cheapest_iff.mp ho with ⟨pd, hpd, go, hgo, henr⟩
    subst henr
    exact ⟨rfl, pd, hpd, rfl, rfl, rfl⟩
  · intro tbl g pd go _ _ hp hd1 hd12 hd31
    simp only [enrichOffer]
    constructor
    · exact mul_le_mul_of_nonneg_left (by linarith) hp
    · calc go.price_per_gpu_hr * (1 - pd.2.reserved_1yr_discount)
          ≤ go.price_per_gpu_hr * 1 := mul_le_mul_of_nonneg_left (by linarith) hp
        _ = go.price_per_gpu_hr := mul_one _
  · norm_num [get_cheapest_by_gpu, collectOffers, T5, provOf, enrichOffer, offerA, offerB,
      specX, List.insertionSort, List.orderedInsert, List.lookup, priceLe, Offering.mk.injEq,
      Rat.mkRat_eq_div]

/-- Witness for C5 at scenario 1: provider B's entry for GPU X with its
concrete discounts satisfies the reserved-price ordering. -/
theorem C5_witness :
    (enrichOffer "B" (provOf "B" "b1" "X" (mkRat 3 2))
        { instance_ := "b1", price_per_gpu_hr := mkRat 3 2, regions := none }).reserved_3yr ≤
      (enrichOffer "B" (provOf "B" "b1" "X" (mkRat 3 2))
        { instance_ := "b1", price_per_gpu_hr := mkRat 3 2, regions := none }).reserved_1yr ∧
    (enrichOffer "B" (provOf "B" "b1" "X" (mkRat 3 2))
        { instance_ := "b1", price_per_gpu_hr := mkRat 3 2, regions := none }).reserved_1yr ≤
      (enrichOffer "B" (provOf "B" "b1" "X" (mkRat 3 2))
        { instance_ := "b1", price_per_gpu_hr := mkRat 3 2, regions := none }).price_per_gpu_hr :=
  C5_pricing_algebra.2.1 T5 "X" ("B", provOf "B" "b1" "X" (mkRat 3 2))
    { instance_ := "b1", price_per_gpu_hr := mkRat 3 2, regions := none }
    (by decide) (by decide) (by decide) (by decide) (by decide) (by decide)

/-- Claim C8: the comparison matrix has one row per spec-table GPU with at
least one offering: its length is the number of spec entries with non-empty
offerings, no row's GPU has zero offerings, and under the dict guarantee of
unique spec keys each such GPU contributes exactly one row. -/
theorem C8_matrix_cardinality (tbl : Table) :
    (get_price_comparison_matrix tbl).length =
      (tbl.GPU_SPECS.filter (fun e => decide (¬ (get_cheapest_by_gpu tbl e.1 = [])))).length ∧
    (∀ r ∈ get_price_comparison_matrix tbl, ¬ (get_cheapest_by_gpu tbl r.gpu_id = [])) ∧
    ((tbl.GPU_SPECS.map Prod.fst).Nodup →
      ∀ e ∈ tbl.GPU_SPECS, ¬ (get_cheapest_by_gpu tbl e.1 = []) →
        ((get_price_comparison_matrix tbl).filter
          (fun r => decide (r.gpu_id = e.1))).length = 1) := by
  refine ⟨?_, ?_, ?_⟩
  · unfold get_price_comparison_matrix
    rw [(List.perm_insertionSort cheaperRowLe _).length_eq]
    exact length_filterMap_rowFor tbl _
  · intro r hr
    rcases mem_matrix_iff.mp hr with ⟨e, he, hrow⟩
    rw [(rowFor_fields hrow).1]
    intro hc
    rw [rowFor_eq_none_iff.mpr hc] at hrow
    cases hrow
  · intro hnd e he hne
    rw [← List.countP_eq_length_filter]
    unfold get_price_comparison_matrix
    rw [(List.perm_insertionSort cheaperRowLe _).countP_eq]
    exact countP_rows_of_mem tbl _ hnd e he hne

/-- Witness for C8 at scenario 1: GPU `"X"` has offerings and contributes
exactly one row. -/
theorem C8_witness :
    ((get_price_comparison_matrix T5).filter
      (fun r => decide (r.gpu_id = ("X", specX).1))).length = 1 :=
  (C8_matrix_cardinality T5).2.2 (by decide) ("X", specX) (by decide) (by decide)

/-- Claim C9: the comparison matrix rows are sorted non-increasing by
cheapest price (`cheaperRowLe a b` states `b.cheapest_price ≤
a.cheapest_price`), so every earlier row — in particular each adjacent
predecessor — has a cheapest price at least the later row's. -/
theorem C9_matrix_sorted_desc (tbl : Table) :
    List.Sorted cheaperRowLe (get_price_comparison_matrix tbl) :=
  List.sorted_insertionSort cheaperRowLe _

/-- Claim C10 (implicit): every matrix row satisfies most_expensive ≥
cheapest_price (head versus last of the ascending-sorted offering list) and
a non-negative price spread. -/
theorem C10_spread_nonneg (tbl : Table) (r : ComparisonRow)
    (hr : r ∈ get_price_comparison_matrix tbl) :
    r.cheapest_price ≤ r.most_expensive ∧ 0 ≤ r.price_spread_pct := by
  rcases mem_matrix_iff.mp hr with ⟨e, he, hrow⟩
  rcases rowFor_price_fields hrow with ⟨p0, ps, hc, hch, hme, hsp⟩
  have hsorted : List.Sorted priceLe (get_cheapest_by_gpu tbl e.1) :=
    List.sorted_insertionSort priceLe _
  rw [hc] at hsorted
  have h1 : r.cheapest_price ≤ r.most_expensive := by
    rw [hch, hme]
    exact head_le_getLastD hsorted
  refine ⟨h1, ?_⟩
  rw [hsp]
  by_cases hpos : 0 < r.cheapest_price
  · rw [if_pos hpos]
    apply pyRound_nonneg
    apply mul_nonneg _ (by norm_num)
    exact div_nonneg (by linarith) (le_of_lt hpos)
  · rw [if_neg hpos]

/-- Witness for C10 at scenario 1: the single row of the matrix. -/
theorem C10_witness :
    ((get_price_comparison_matrix T5).headD fallbackRow).cheapest_price ≤
      ((get_price_comparison_matrix T5).headD fallbackRow).most_expensive ∧
    0 ≤ ((get_price_comparison_matrix T5).headD fallbackRow).price_spread_pct :=
  C10_spread_nonneg T5 _ (headD_mem _ _ (by decide))

/-- Round half to even is the identity on integers. -/
theorem roundHalfEven_intCast (z : ℤ) : roundHalfEven (z : ℚ) = z := by
  unfold roundHalfEven
  rw [Int.floor_intCast]
  norm_num

/-- Python rounding is the identity on integer values. -/
theorem pyRound_intCast (n : ℕ) (z : ℤ) : pyRound n (z : ℚ) = z := by
  unfold pyRound
  have h : ((z : ℚ) * 10 ^ n) = ((z * 10 ^ n : ℤ) : ℚ) := by push_cast; ring
  rw [h, roundHalfEven_intCast]
  push_cast
  rw [mul_div_assoc, div_self (by positivity), mul_one]

theorem pyRound_one_ten : pyRound 1 (10 : ℚ) = 10 := by
  rw [(by norm_num : ((10 : ℚ)) = ((10 : ℤ) : ℚ))]
  exact pyRound_intCast 1 10

theorem pyRound_one_five : pyRound 1 (5 : ℚ) = 5 := by
  rw [(by norm_num : ((5 : ℚ)) = ((5 : ℤ) : ℚ))]
  exact pyRound_intCast 1 5

theorem pyRound_one_eighty : pyRound 1 (80 : ℚ) = 80 := by
  rw [(by norm_num : ((80 : ℚ)) = ((80 : ℤ) : ℚ))]
  exact pyRound_intCast 1 80

theorem pyRound_one_thousand : pyRound 1 (1000 : ℚ) = 1000 := by
  rw [(by norm_num : ((1000 : ℚ)) = ((1000 : ℤ) : ℚ))]
  exact pyRound_intCast 1 1000

theorem pyRound_one_fivehundred : pyRound 1 (500 : ℚ) = 500 := by
  rw [(by norm_num : ((500 : ℚ)) = ((500 : ℤ) : ℚ))]
  exact pyRound_intCast 1 500

theorem pyRound_two_one : pyRound 2 (1 : ℚ) = 1 := by
  rw [(by norm_num : ((1 : ℚ)) = ((1 : ℤ) : ℚ))]
  exact pyRound_intCast 2 1

theorem pyRound_one_neg_ten : pyRound 1 (-10 : ℚ) = -10 := by
  rw [(by norm_num : ((-10 : ℚ)) = ((-10 : ℤ) : ℚ))]
  exact pyRound_intCast 1 (-10)

/-- The scenario of claim C6's counterexample: a raw change of −100/3 %
rounds half-to-even at one decimal to −33.3. -/
theorem pyRound_one_neg_hundred_thirds : pyRound 1 ((2 - 3 : ℚ) / 3 * 100) = -333/10 := by
  unfold pyRound roundHalfEven
  have h1 : ((2 - 3 : ℚ) / 3 * 100 * 10 ^ 1) = -1000/3 := by norm_num
  rw [h1]
  have hf : ⌊(-1000/3 : ℚ)⌋ = -334 := by
    rw [Int.floor_eq_iff]
    norm_num
  rw [hf]
  norm_num

/-- Claim C1 (code bug): on a snapshot where no GPU has any provider
offering, the comparison matrix is empty and `generate_market_summary`
propagates the unguarded `ValueError` of `max()` over an empty sequence;
the code has no named "insufficient data" condition at all. -/
theorem C1_empty_summary_value_error :
    get_price_comparison_matrix T1 = [] ∧
    generate_market_summary T1 "2026-02-17T00:00:00" =
      Except.error "ValueError: max() arg is an empty sequence" :=
  ⟨rfl, rfl⟩

/-- Claim C2 (counterexample): two market-summary calls over the unchanged
scenario-1 snapshot both succeed yet differ, because the summary embeds the
wall-clock reading `datetime.now().isoformat()` taken at each call. -/
theorem C2_counterexample :
    isOkB (generate_market_summary T5 "2026-02-17T10:00:00") = true ∧
    ¬ (summaryAt T5 "2026-02-17T10:00:00" = summaryAt T5 "2026-02-17T10:00:01") := by
  refine ⟨rfl, ?_⟩
  intro h
  have h2 := congrArg MarketSummary.timestamp h
  have e1 : (summaryAt T5 "2026-02-17T10:00:00").timestamp = "2026-02-17T10:00:00" := rfl
  have e2 : (summaryAt T5 "2026-02-17T10:00:01").timestamp = "2026-02-17T10:00:01" := rfl
  rw [e1, e2] at h2
  exact absurd h2 (by decide)

/-- Claim C2 (amended): every aggregation output is a function of the table
snapshot alone except for the summary's timestamp field: with the timestamp
erased, market summaries taken at any two clock instants over the same
snapshot are identical (and the other aggregations take no clock at all). -/
theorem C2_deterministic_up_to_timestamp (tbl : Table) (t1 t2 : String) :
    (generate_market_summary tbl t1).map eraseTimestamp =
      (generate_market_summary tbl t2).map eraseTimestamp := by
  unfold generate_market_summary
  cases hM : get_price_comparison_matrix tbl with
  | nil => rfl
  | cons c cs => rfl

/-- Claim C3 (counterexample): on a snapshot where every GPU's price is
rising (matrix changes +10 % and +5 %), the summary still succeeds and
selects a row with a positive `monthly_change_pct` (+5, the smallest
increase) as the "biggest price drop" — so a positive change can be
selected, contradicting the claim. -/
theorem C3_counterexample :
    (get_price_comparison_matrix T3).map (fun r => (r.gpu_id, r.monthly_change_pct)) =
      [("G1", 10), ("G2", 5)] ∧
    isOkB (generate_market_summary T3 "t") = true ∧
    biggest_drop_pct T3 "t" = 5 ∧ (0 : ℚ) < 5 := by
  have hg1 : monthly_change_pct_of T3 "G1" = pyRound 1 ((mkRat 11 10 - 1) / 1 * 100) := rfl
  have hg2 : monthly_change_pct_of T3 "G2" = pyRound 1 ((mkRat 21 20 - 1) / 1 * 100) := rfl
  have hv1 : monthly_change_pct_of T3 "G1" = 10 := by
    rw [hg1, (by norm_num [Rat.mkRat_eq_div] : ((mkRat 11 10 - 1) / 1 * 100 : ℚ) = 10)]
    exact pyRound_one_ten
  have hv2 : monthly_change_pct_of T3 "G2" = 5 := by
    rw [hg2, (by norm_num [Rat.mkRat_eq_div] : ((mkRat 21 20 - 1) / 1 * 100 : ℚ) = 5)]
    exact pyRound_one_five
  refine ⟨?_, ?_, ?_, by norm_num⟩
  · norm_num [get_price_comparison_matrix,
      show T3.GPU_SPECS = [("G1", specX), ("G2", specX)] from rfl,
      show T3.CLOUD_PRICING = [("C", provT3)] from rfl,
      rowFor, get_cheapest_by_gpu, collectOffers, provT3, enrichOffer, specX,
      List.insertionSort, List.orderedInsert, List.lookup, priceLe, cheaperRowLe, hv1, hv2]
  · norm_num [isOkB, generate_market_summary, get_price_comparison_matrix,
      show T3.GPU_SPECS = [("G1", specX), ("G2", specX)] from rfl,
      show T3.CLOUD_PRICING = [("C", provT3)] from rfl,
      rowFor, get_cheapest_by_gpu, collectOffers, provT3, enrichOffer, specX,
      List.insertionSort, List.orderedInsert, List.lookup, priceLe, cheaperRowLe,
      pyMaxBy, pyMinBy, hv1, hv2, pyRound_one_thousand, pyRound_one_eighty, pyRound_two_one]
  · norm_num [biggest_drop_pct, generate_market_summary, get_price_comparison_matrix,
      show T3.GPU_SPECS = [("G1", specX), ("G2", specX)] from rfl,
      show T3.CLOUD_PRICING = [("C", provT3)] from rfl,
      rowFor, get_cheapest_by_gpu, collectOffers, provT3, enrichOffer, specX,
      List.insertionSort, List.orderedInsert, List.lookup, priceLe, cheaperRowLe,
      pyMaxBy, pyMinBy, hv1, hv2, pyRound_one_thousand, pyRound_one_eighty, pyRound_two_one]

/-- Claim C3 (amended): the summary's "biggest price drop" is the row
minimizing `monthly_change_pct` — the most negative change whenever any row
falls, but merely the smallest (still positive) increase when every row
rises. -/
theorem C3_biggest_drop_is_min (tbl : Table) (now : String) (s : MarketSummary)
    (h : generate_market_summary tbl now = Except.ok s) :
    (∀ r ∈ get_price_comparison_matrix tbl,
      s.biggest_price_drop.change_pct ≤ r.monthly_change_pct) ∧
    (∃ r ∈ get_price_comparison_matrix tbl,
      r.name = s.biggest_price_drop.gpu ∧
      r.monthly_change_pct = s.biggest_price_drop.change_pct) := by
  unfold generate_market_summary at h
  cases hM : get_price_comparison_matrix tbl with
  | nil =>
    rw [hM] at h
    simp [pyMaxBy, pyMinBy] at h
  | cons c cs =>
    rw [hM] at h
    simp only [pyMaxBy, pyMinBy] at h
    injection h with h
    subst h
    have hpm : pyMinBy (fun x : ComparisonRow => x.monthly_change_pct) (c :: cs) =
        some (cs.foldl
          (fun best z => if z.monthly_change_pct < best.monthly_change_pct then z else best)
          c) := rfl
    have hspecMin := pyMinBy_spec (fun x : ComparisonRow => x.monthly_change_pct) (c :: cs) _ hpm
    refine ⟨fun r hr => hspecMin.2 r hr, ?_⟩
    exact ⟨_, hspecMin.1, rfl, rfl⟩

/-- Witness for the amended C3 at scenario 1: the selected drop's change is
below the single row's change. -/
theorem C3_witness :
    (summaryAt T5 "t").biggest_price_drop.change_pct ≤
      ((get_price_comparison_matrix T5).headD fallbackRow).monthly_change_pct :=
  (C3_biggest_drop_is_min T5 "t" (summaryAt T5 "t") rfl).1 _ (headD_mem _ _ (by decide))

/-- Claim C6 (counterexample): with historical averages $3.00 then $2.00,
the matrix row's `monthly_change_pct` is −33.3 (the raw formula rounded to
one decimal), not the claimed raw value −100/3. -/
theorem C6_counterexample :
    (get_price_comparison_matrix T6).map (fun r => (r.gpu_id, r.monthly_change_pct)) =
      [("Z", -333/10)] ∧
    ¬ ((-333 : ℚ)/10 = ((2 - 3 : ℚ)/3) * 100) := by
  constructor
  · have hz : monthly_change_pct_of T6 "Z" = pyRound 1 ((2 - 3 : ℚ) / 3 * 100) := rfl
    have hv : monthly_change_pct_of T6 "Z" = -333/10 := by
      rw [hz, pyRound_one_neg_hundred_thirds]
    norm_num [get_price_comparison_matrix,
      show T6.GPU_SPECS = [("Z", specX)] from rfl,
      show T6.CLOUD_PRICING = [("C", provOf "C" "c1" "Z" 1)] from rfl,
      rowFor, get_cheapest_by_gpu, collectOffers, provOf, enrichOffer, specX,
      List.insertionSort, List.orderedInsert, List.lookup, hv]
  · norm_num

/-- Claim C6 (amended): each matrix row's `monthly_change_pct` is the
month-over-month change of the two latest historical periods rounded
half-to-even at one decimal (the embedding's `monthly_change_pct_of`),
exactly 0 when fewer than two periods exist, and −10.0 on the scenario-2
fixture (avg $2.00 then $1.80). -/
theorem C6_monthly_change_rounded (tbl : Table) (r : ComparisonRow)
    (hr : r ∈ get_price_comparison_matrix tbl) :
    r.monthly_change_pct = monthly_change_pct_of tbl r.gpu_id ∧
    ((get_price_trends tbl r.gpu_id).length < 2 → r.monthly_change_pct = 0) ∧
    (get_price_comparison_matrix T2).map (fun x => (x.gpu_id, x.monthly_change_pct)) =
      [("X", -10)] := by
  rcases mem_matrix_iff.mp hr with ⟨e, he, hrow⟩
  obtain ⟨hid, hmc⟩ := rowFor_fields hrow
  refine ⟨by rw [hmc, hid], ?_, ?_⟩
  · intro hlen
    rw [hid] at hlen
    rw [hmc]
    exact monthly_change_pct_of_short hlen
  · have hx : monthly_change_pct_of T2 "X" = pyRound 1 ((mkRat 9 5 - 2) / 2 * 100) := rfl
    have hv : monthly_change_pct_of T2 "X" = -10 := by
      rw [hx, (by norm_num [Rat.mkRat_eq_div] : ((mkRat 9 5 - 2) / 2 * 100 : ℚ) = -10)]
      exact pyRound_one_neg_ten
    norm_num [get_price_comparison_matrix,
      show T2.GPU_SPECS = [("X", specX)] from rfl,
      show T2.CLOUD_PRICING = [("C", provOf "C" "c1" "X" 2)] from rfl,
      rowFor, get_cheapest_by_gpu, collectOffers, provOf, enrichOffer, specX,
      List.insertionSort, List.orderedInsert, List.lookup, hv]

/-- Witness for the amended C6 at the scenario-2 snapshot. -/
theorem C6_witness :
    ((get_price_comparison_matrix T2).headD fallbackRow).monthly_change_pct =
      monthly_change_pct_of T2
        ((get_price_comparison_matrix T2).headD fallbackRow).gpu_id :=
  (C6_monthly_change_rounded T2 _ (headD_mem _ _ (by decide))).1

/-- Claim C7 (code bug): the flops-, vram- and spread-divisions are guarded
(price $2.00 with FP16 1000 gives 500.0; price $0.00 gives 0, not a fault),
but the month-over-month division by the second-latest historical average
at line 1597 is not: a snapshot holding a zero average makes the matrix
computation raise `ZeroDivisionError`, so not every division by a price is
guarded. -/
theorem C7_division_guards :
    get_price_comparison_matrix_checked T7 =
      Except.error "ZeroDivisionError: division by zero" ∧
    (get_price_comparison_matrix T4a).map (fun r => (r.gpu_id, r.flops_per_dollar)) =
      [("Y", 500)] ∧
    (get_price_comparison_matrix T4b).map
      (fun r => (r.gpu_id, r.flops_per_dollar, r.vram_per_dollar, r.price_spread_pct)) =
      [("Y", 0, 0, 0)] := by
  refine ⟨rfl, ?_, ?_⟩
  · norm_num [get_price_comparison_matrix,
      show T4a.GPU_SPECS = [("Y", specX)] from rfl,
      show T4a.CLOUD_PRICING = [("C", provOf "C" "c1" "Y" 2)] from rfl,
      rowFor, get_cheapest_by_gpu, collectOffers, provOf, enrichOffer, specX,
      List.insertionSort, List.orderedInsert, List.lookup, pyRound_one_fivehundred]
  · norm_num [get_price_comparison_matrix,
      show T4b.GPU_SPECS = [("Y", specX)] from rfl,
      show T4b.CLOUD_PRICING = [("C", provOf "C" "c1" "Y" 0)] from rfl,
      rowFor, get_cheapest_by_gpu, collectOffers, provOf, enrichOffer, specX,
      List.insertionSort, List.orderedInsert, List.lookup]

end GpuDash
